import Mathlib

set_option maxHeartbeats 1000000
set_option maxRecDepth 4096

namespace OsrsIngest

/-! Shallow embedding of the wiki-monster normalization and deduplication
engine of `scripts/ingest_monsters_wiki.py`.  Python values that occur as
record fields (JSON scalars and lists) are modelled by `PyVal`; raising a
Python exception is modelled by `Except.error`.  Field values in this
pipeline are `None`, booleans, ints, floats, strings, or (nested) lists;
floats arising here are integral (`float(safe_int(...))`), so a float is
carried as its integer value. -/

mutual

/-- Model of a Python value as it occurs in raw bucket-API records and in the
canonical monster dictionary. -/
inductive PyVal where
  | none
  | bool (b : Bool)
  | int (n : Int)
  | float (n : Int)
  | str (s : String)
  | list (xs : PyList)

/-- A Python list of `PyVal`s, spelled as its own inductive so that all
recursive functions over values are structural and reduce in the kernel. -/
inductive PyList where
  | nil
  | cons (hd : PyVal) (tl : PyList)

end

deriving instance DecidableEq for PyVal, PyList
deriving instance Repr for PyVal, PyList

/-- Convert a `PyList` to an ordinary Lean list, for stating properties. -/
def PyList.toList : PyList → List PyVal
  | PyList.nil => []
  | PyList.cons x xs => x :: PyList.toList xs

def PyList.ofList : List PyVal → PyList
  | [] => PyList.nil
  | x :: xs => PyList.cons x (PyList.ofList xs)

/-- Python truthiness (`bool(value)`). -/
def pyTruthy : PyVal → Bool
  | PyVal.none => false
  | PyVal.bool b => b
  | PyVal.int n => n != 0
  | PyVal.float n => n != 0
  | PyVal.str s => s != ""
  | PyVal.list PyList.nil => false
  | PyVal.list (PyList.cons _ _) => true

/-- Python `==` of an arbitrary value against a string literal: only a `str`
can compare equal to a string. -/
def pyEqStr (v : PyVal) (s : String) : Bool :=
  match v with
  | PyVal.str t => t == s
  | _ => false

/-- Python `pat in hay` on strings: contiguous substring containment. -/
def pyIn (pat hay : String) : Bool := decide (pat.toList <:+: hay.toList)

/-- Python `str.lower()` (ASCII range, matching `Char.toLower`), written
over the character list so that it reduces in the kernel. -/
def pyLower (s : String) : String :=
  String.mk (s.toList.map Char.toLower)

/-- Whitespace characters removed by Python `str.strip()` (ASCII range). -/
def isPySpace (c : Char) : Bool :=
  c = ' ' || c = '\t' || c = '\n' || c = '\r' || c = Char.ofNat 11 || c = Char.ofNat 12

/-- Python `str.strip()`: drop whitespace from both ends. -/
def pyStrip (s : String) : String :=
  String.mk (((s.toList.dropWhile isPySpace).reverse.dropWhile isPySpace).reverse)

/-- Value of a non-empty run of decimal digits. -/
def digitsToNat (l : List Char) : Nat :=
  l.foldl (fun acc c => acc * 10 + (c.toNat - 48)) 0

/-- A whole character run as a decimal number, when non-empty and all digits. -/
def digitsVal (l : List Char) : Option Nat :=
  if l.isEmpty then Option.none
  else if l.all Char.isDigit then some (digitsToNat l) else Option.none

/-- Python `int(s)` on a string: strip whitespace, optional sign, decimal
digits; any other shape raises `ValueError` (modelled as `Option.none`).
Underscore digit separators, accepted by Python, are not modelled; no input
in this development uses them. -/
def parseIntStr (s : String) : Option Int :=
  match (pyStrip s).toList with
  | '-' :: rest => (digitsVal rest).map (fun n => -(n : Int))
  | '+' :: rest => (digitsVal rest).map (fun n => (n : Int))
  | l => (digitsVal l).map (fun n => (n : Int))

/-- Python `int(value)` on a scalar: succeeds on bools, ints, integral
floats and well-formed numeric strings; `TypeError`/`ValueError` otherwise
(modelled as `Option.none`, which `safe_int` turns into its default). -/
def pyToInt : PyVal → Option Int
  | PyVal.bool b => some (if b then 1 else 0)
  | PyVal.int n => some n
  | PyVal.float n => some n
  | PyVal.str s => parseIntStr s
  | _ => Option.none

/-- Embedding of `safe_int` (source lines 164-173): `None` yields the
default; a list is replaced by its first element (or the default if empty);
then `int(...)` is attempted with the default on failure. -/
def safe_int (value : PyVal) (default : Int) : Int :=
  match value with
  | PyVal.none => default
  | PyVal.list PyList.nil => default
  | PyVal.list (PyList.cons x _) => (pyToInt x).getD default
  | v => (pyToInt v).getD default

/-- Embedding of `safe_uint` (lines 176-179): `safe_int` then clamp at 0. -/
def safe_uint (value : PyVal) (default : Int) : Int :=
  max 0 (safe_int value default)

/-- Leading decimal-digit run of a string, as in `re.match(r"^(\d+)", s)`. -/
def leadingDigitsOf (s : String) : Option Nat :=
  let ds := s.toList.takeWhile Char.isDigit
  if ds.isEmpty then Option.none else some (digitsToNat ds)

mutual

/-- Embedding of `parse_max_hit` (lines 182-201): `None` yields 0; a list
yields the running maximum (started at 0) of the recursively parsed items;
an int (or bool, a Python int subtype) yields its value; a string yields its
leading digit run after stripping, or 0. -/
def parse_max_hit : PyVal → Int
  | PyVal.none => 0
  | PyVal.list xs => parse_max_hit_go 0 xs
  | PyVal.bool b => if b then 1 else 0
  | PyVal.int n => n
  | PyVal.str s =>
    match leadingDigitsOf (pyStrip s) with
    | some n => (n : Int)
    | Option.none => 0
  | PyVal.float _ => 0

/-- The `for item in value` loop of `parse_max_hit`, accumulating
`max_val`. -/
def parse_max_hit_go : Int → PyList → Int
  | acc, PyList.nil => acc
  | acc, PyList.cons x xs =>
    parse_max_hit_go (if parse_max_hit x > acc then parse_max_hit x else acc) xs

end

/-- Decimal digits of a natural number, accumulator style with fuel so the
definition is structural and reduces in the kernel. -/
def natDigitsGo : Nat → Nat → List Char → List Char
  | 0, _, acc => acc
  | Nat.succ _, 0, acc => acc
  | Nat.succ fuel, n, acc => natDigitsGo fuel (n / 10) (Char.ofNat (48 + n % 10) :: acc)

/-- Decimal representation of a natural number. -/
def natRepr (n : Nat) : String :=
  if n = 0 then "0" else String.mk (natDigitsGo (n + 1) n [])

/-- Python `str(n)` for an int. -/
def intRepr : Int → String
  | Int.ofNat m => natRepr m
  | Int.negSucc m => "-" ++ natRepr (m + 1)

mutual

/-- Python `str(value)` for the value shapes of this pipeline. -/
def pyStr : PyVal → String
  | PyVal.none => "None"
  | PyVal.bool b => if b then ("True") else ("False")
  | PyVal.int n => intRepr n
  | PyVal.float n => intRepr n ++ ".0"
  | PyVal.str s => s
  | PyVal.list xs => "[" ++ String.intercalate (", ") (pyReprList xs) ++ "]"

/-- Python `repr(value)`, used for list elements inside `str(list)`: like
`str` except strings are quoted.  The escaping Python applies to
quotes/backslashes inside string reprs is not modelled; no string in this
development needs it. -/
def pyRepr : PyVal → String
  | PyVal.str s => (Char.ofNat 39).toString ++ s ++ (Char.ofNat 39).toString
  | PyVal.none => "None"
  | PyVal.bool b => if b then ("True") else ("False")
  | PyVal.int n => intRepr n
  | PyVal.float n => intRepr n ++ ".0"
  | PyVal.list xs => "[" ++ String.intercalate (", ") (pyReprList xs) ++ "]"

def pyReprList : PyList → List String
  | PyList.nil => []
  | PyList.cons x xs => pyRepr x :: pyReprList xs

end

/-- Last element of a non-empty `PyList` (`value[-1]`). -/
def PyList.lastOf : PyVal → PyList → PyVal
  | x, PyList.nil => x
  | _, PyList.cons y ys => PyList.lastOf y ys

/-- Embedding of `safe_str` (lines 204-210): `None` yields the default; a
list is replaced by its last element (or the default if empty); then the
value is stringified. -/
def safe_str (value : PyVal) (default : String) : String :=
  match value with
  | PyVal.none => default
  | PyVal.list PyList.nil => default
  | PyVal.list (PyList.cons x xs) => pyStr (PyList.lastOf x xs)
  | v => pyStr v

/-- Embedding of `safe_bool` (lines 213-221): `None` yields the default; a
bool passes through; a string is lowercased and compared against
`true`/`yes`/`1`; anything else goes through truthiness. -/
def safe_bool (value : PyVal) (default : Bool) : Bool :=
  match value with
  | PyVal.none => default
  | PyVal.bool b => b
  | PyVal.str s => pyLower s == "true" || pyLower s == "yes" || pyLower s == "1"
  | v => pyTruthy v

/-- The filtered lowercasing comprehension of `normalize_attack_style`:
`[s.lower() for s in style if s and s not in ("None", "N/A")]`.  Calling
`.lower()` on a kept non-string item raises `AttributeError`. -/
def lower_style_items : PyList → Except String (List String)
  | PyList.nil => Except.ok []
  | PyList.cons x xs =>
    if pyTruthy x && !(pyEqStr x ("None")) && !(pyEqStr x ("N/A")) then
      match x with
      | PyVal.str s =>
        match lower_style_items xs with
        | Except.ok rest => Except.ok (pyLower s :: rest)
        | Except.error e => Except.error e
      | _ => Except.error ("AttributeError: lower on non-str attack style item")
    else lower_style_items xs

/-- Embedding of `normalize_attack_style` (lines 224-232). -/
def normalize_attack_style (style : PyVal) : Except String (List String) :=
  if style = PyVal.none || pyEqStr style ("None") || pyEqStr style ("N/A") then
    Except.ok []
  else
    match style with
    | PyVal.str s => Except.ok [pyLower s]
    | PyVal.list xs => lower_style_items xs
    | _ => Except.ok []

/-- The comprehension of `normalize_attributes`:
`[a.lower() for a in attrs if a]`. -/
def lower_attr_items : PyList → Except String (List String)
  | PyList.nil => Except.ok []
  | PyList.cons x xs =>
    if pyTruthy x then
      match x with
      | PyVal.str s =>
        match lower_attr_items xs with
        | Except.ok rest => Except.ok (pyLower s :: rest)
        | Except.error e => Except.error e
      | _ => Except.error ("AttributeError: lower on non-str attribute item")
    else lower_attr_items xs

/-- Embedding of `normalize_attributes` (lines 235-243). -/
def normalize_attributes (attrs : PyVal) : Except String (List String) :=
  match attrs with
  | PyVal.none => Except.ok []
  | PyVal.str s => Except.ok [pyLower s]
  | PyVal.list xs => lower_attr_items xs
  | _ => Except.ok []

/-- Embedding of `normalize_slayer_category` (lines 246-254): items are kept
by truthiness, case preserved, types untouched. -/
def normalize_slayer_category (category : PyVal) : List PyVal :=
  match category with
  | PyVal.none => []
  | PyVal.str s => [PyVal.str s]
  | PyVal.list xs => (PyList.toList xs).filter pyTruthy
  | _ => []

/-- Quote characters admitted around a parser marker by `STRIP_MARKER_RE`
(single quote, double quote, backtick). -/
def isQuoteCh (c : Char) : Bool :=
  c = Char.ofNat 39 || c = Char.ofNat 34 || c = Char.ofNat 96

/-- Uppercase hexadecimal digit (`[0-9A-F]`). -/
def isHexUp (c : Char) : Bool :=
  c.isDigit || ('A' ≤ c && c ≤ 'F')

/-- Match a literal character sequence, returning the remainder. -/
def matchChars : List Char → List Char → Option (List Char)
  | [], l => some l
  | _ :: _, [] => Option.none
  | p :: ps, c :: cs => if c = p then matchChars ps cs else Option.none

/-- Try to match `STRIP_MARKER_RE`
(`['\"`]*UNIQ--[a-zA-Z0-9]+-[0-9A-F]{8}-QINU['\"`]*`) at the head of the
character list, returning the remainder after the match.  The pattern is
deterministic: each greedy run is delimited by a character its class cannot
match, so no backtracking can produce a different match. -/
def tryMarker (l : List Char) : Option (List Char) :=
  let l1 := l.dropWhile isQuoteCh
  match matchChars (String.toList ("UNIQ--")) l1 with
  | Option.none => Option.none
  | some l2 =>
    let run := l2.takeWhile Char.isAlphanum
    if run.isEmpty then Option.none
    else
      match l2.drop run.length with
      | '-' :: l4 =>
        if (l4.take 8).length = 8 && (l4.take 8).all isHexUp then
          match matchChars (String.toList ("-QINU")) (l4.drop 8) with
          | Option.none => Option.none
          | some l5 => some (l5.dropWhile isQuoteCh)
        else Option.none
      | _ => Option.none

/-- Scan of `STRIP_MARKER_RE.sub("", s)`: at each position remove a marker
match or keep the character.  Fuel is the list length; a successful match
consumes at least one character, so the fuel never runs out. -/
def stripGo : Nat → List Char → List Char
  | 0, _ => []
  | Nat.succ _, [] => []
  | Nat.succ fuel, c :: cs =>
    match tryMarker (c :: cs) with
    | some rest => stripGo fuel rest
    | Option.none => c :: stripGo fuel cs

/-- Embedding of `STRIP_MARKER_RE.sub("", s)` (line 258). -/
def stripMarkers (s : String) : String :=
  String.mk (stripGo s.toList.length s.toList)

/-- The string branch of `strip_parser_tags`: remove markers, then strip
whitespace. -/
def strip_parser_tags_str (s : String) : String :=
  pyStrip (stripMarkers s)

mutual

/-- Embedding of `strip_parser_tags` (lines 261-269) on scalar/list values:
strings have markers removed and are stripped; lists are rebuilt
elementwise; other scalars pass through. -/
def strip_parser_tags : PyVal → PyVal
  | PyVal.str s => PyVal.str (strip_parser_tags_str s)
  | PyVal.list xs => PyVal.list (strip_parser_tags_list xs)
  | v => v

def strip_parser_tags_list : PyList → PyList
  | PyList.nil => PyList.nil
  | PyList.cons x xs => PyList.cons (strip_parser_tags x) (strip_parser_tags_list xs)

end

/-- The `dict` branch of `strip_parser_tags`, specialised to the
string-keyed monster dictionary (field values in this pipeline contain no
nested dicts): values are stripped recursively, keys and order preserved. -/
def strip_parser_tags_dict (m : List (String × PyVal)) : List (String × PyVal) :=
  m.map (fun kv => (kv.1, strip_parser_tags kv.2))

/-- A raw bucket-API record: a Python dict from field names to values. -/
abbrev RawRecord := List (String × PyVal)

/-- A canonical monster: the Python dict built by `transform_monster`,
keys in insertion order. -/
abbrev Monster := List (String × PyVal)

/-- Python `d.get(k, default)`. -/
def dictGetD (m : List (String × PyVal)) (k : String) (d : PyVal) : PyVal :=
  match m with
  | [] => d
  | (k', v) :: rest => if k' = k then v else dictGetD rest k d

/-- Python `d.get(k)` (default `None`). -/
def dictGet (m : List (String × PyVal)) (k : String) : PyVal :=
  dictGetD m k PyVal.none

/-- Calling a str method on a value: succeeds only on strings, raising
`AttributeError` (the given message) otherwise. -/
def asStr (v : PyVal) (err : String) : Except String String :=
  match v with
  | PyVal.str s => Except.ok s
  | _ => Except.error err

/-- Characters after the first `#`, if any: `s.split("#", 1)[1]`. -/
def afterFirstHash : List Char → Option (List Char)
  | [] => Option.none
  | c :: cs => if c = '#' then some cs else afterFirstHash cs

/-- Version extraction (lines 278-281): the substring after the first `#` of
the sub-page name, or `""` when there is none (the caught `IndexError`). -/
def versionOf (s : String) : String :=
  match afterFirstHash s.toList with
  | some rest => String.mk rest
  | Option.none => ""

/-- Embedding of `re.match(r"^[A-Za-z]+:", s)` (line 288): a non-empty
leading ASCII-alphabetic run followed by a colon. -/
def nsMatch (s : String) : Bool :=
  let l := s.toList
  let run := l.takeWhile Char.isAlpha
  !run.isEmpty &&
    (match l.drop run.length with
     | ':' :: _ => true
     | _ => false)

/-- Embedding of `re.match(r"^(Strong|Weak|Medium|Overcharged) Barrier$", s)`
(line 302). -/
def isBarrierPage (s : String) : Bool :=
  s == "Strong Barrier" || s == "Weak Barrier" || s == "Medium Barrier" ||
    s == "Overcharged Barrier"

/-- The skip-list of monster display names (lines 71-90). -/
def MONSTERS_TO_SKIP : List String :=
  ["Albatross", "Armoured kraken", "Bull shark", "Butterfly ray", "Eagle ray",
   "Frigatebird", "Great white shark", "Hammerhead shark", "Manta ray (Sailing)",
   "Mogre (Sailing)", "Narwhal", "Orca", "Osprey", "Pygmy kraken",
   "Spined kraken", "Stingray", "Tern", "Tiger shark"]

/-- The canonical monster dictionary literal of `transform_monster`
(lines 334-386), in source key order.  `monster_id`, `pn` (`page_name` as a
string), `version`, `hitpoints`, `slayer_category`, `attributes`,
`attack_type`, `is_slayer`, `is_boss` and `pns` (`page_name_sub` as a
string) are the values the source has computed before the literal. -/
def buildFields (w : RawRecord) (monster_id : Int) (pn : String) (version : String)
    (hitpoints : Int) (slayer_category : List PyVal) (attributes : List String)
    (attack_type : List String) (is_slayer : Bool) (is_boss : Bool)
    (pns : String) : Monster :=
  [("id", PyVal.int monster_id),
   ("name", PyVal.str pn),
   ("version", if version = "" then PyVal.none else PyVal.str version),
   ("combat_level", PyVal.int (safe_int (dictGet w ("combat_level")) 0)),
   ("hitpoints", PyVal.int hitpoints),
   ("attack_level", PyVal.int (safe_int (dictGet w ("attack_level")) 0)),
   ("strength_level", PyVal.int (safe_int (dictGet w ("strength_level")) 0)),
   ("defence_level", PyVal.int (safe_int (dictGet w ("defence_level")) 0)),
   ("magic_level", PyVal.int (safe_int (dictGet w ("magic_level")) 0)),
   ("ranged_level", PyVal.int (safe_int (dictGet w ("ranged_level")) 0)),
   ("attack_bonus", PyVal.int (safe_int (dictGet w ("attack_bonus")) 0)),
   ("strength_bonus", PyVal.int (safe_int (dictGet w ("strength_bonus")) 0)),
   ("attack_magic", PyVal.int (safe_int (dictGet w ("magic_attack_bonus")) 0)),
   ("magic_bonus", PyVal.int (safe_int (dictGet w ("magic_damage_bonus")) 0)),
   ("attack_ranged", PyVal.int (safe_int (dictGet w ("range_attack_bonus")) 0)),
   ("ranged_bonus", PyVal.int (safe_int (dictGet w ("range_strength_bonus")) 0)),
   ("defence_stab", PyVal.int (safe_int (dictGet w ("stab_defence_bonus")) 0)),
   ("defence_slash", PyVal.int (safe_int (dictGet w ("slash_defence_bonus")) 0)),
   ("defence_crush", PyVal.int (safe_int (dictGet w ("crush_defence_bonus")) 0)),
   ("defence_magic", PyVal.int (safe_int (dictGet w ("magic_defence_bonus")) 0)),
   ("defence_ranged", PyVal.int (safe_int (dictGet w ("range_defence_bonus")) 0)),
   ("defence_ranged_light", PyVal.int (safe_int (dictGet w ("light_range_defence_bonus")) 0)),
   ("defence_ranged_standard", PyVal.int (safe_int (dictGet w ("standard_range_defence_bonus")) 0)),
   ("defence_ranged_heavy", PyVal.int (safe_int (dictGet w ("heavy_range_defence_bonus")) 0)),
   ("attack_speed", PyVal.int (safe_uint (dictGet w ("attack_speed")) 0)),
   ("attack_type", PyVal.list (PyList.ofList (attack_type.map PyVal.str))),
   ("max_hit", PyVal.int (parse_max_hit (dictGet w ("max_hit")))),
   ("size", PyVal.int (safe_uint (dictGet w ("size")) 1)),
   ("attributes", PyVal.list (PyList.ofList (attributes.map PyVal.str))),
   ("category", PyVal.list (PyList.ofList slayer_category)),
   ("slayer_monster", PyVal.bool is_slayer),
   ("slayer_level", PyVal.int (safe_uint (dictGet w ("slayer_level")) 1)),
   ("slayer_xp", PyVal.float (safe_int (dictGet w ("slayer_experience")) 0)),
   ("boss", PyVal.bool is_boss),
   ("immune_poison", PyVal.bool (safe_bool (dictGet w ("poison_immune")) false)),
   ("immune_venom", PyVal.bool (safe_bool (dictGet w ("venom_immune")) false)),
   ("elemental_weakness",
     if safe_str (dictGet w ("elemental_weakness")) "" = "" then PyVal.none
     else PyVal.str (safe_str (dictGet w ("elemental_weakness")) "")),
   ("elemental_weakness_percent", PyVal.int (safe_int (dictGet w ("elemental_weakness_percent")) 0)),
   ("_source", PyVal.str ("osrs_wiki")),
   ("_wiki_page", PyVal.str pns)]

/-- Embedding of `transform_monster` (lines 272-391).  Rejection is
`Except.ok Option.none`; a raised exception is `Except.error`.  The two
fallible normalizer calls are hoisted just before the dictionary literal;
everything the source evaluates between their original positions and the
literal is total, so observable behaviour is unchanged. -/
def transform_monster (wiki_data : RawRecord) : Except String (Option Monster) :=
  let page_name_sub := dictGetD wiki_data ("page_name_sub") (PyVal.str (""))
  let page_name := dictGetD wiki_data ("page_name") (PyVal.str (""))
  match asStr page_name_sub ("AttributeError: split on non-str page_name_sub") with
  | Except.error e => Except.error e
  | Except.ok pns =>
    let version := versionOf pns
    if pyIn ("Challenge Mode") version then Except.ok Option.none
    else if nsMatch pns then Except.ok Option.none
    else if MONSTERS_TO_SKIP.any (fun nm => pyEqStr page_name nm) then Except.ok Option.none
    else if pyIn ("Spawn point") version then Except.ok Option.none
    else if pyIn ("Asleep") version || pyIn ("Defeated") version then Except.ok Option.none
    else if isBarrierPage pns then Except.ok Option.none
    else
      let monster_id := safe_int (dictGet wiki_data ("id")) 0
      if monster_id = 0 then Except.ok Option.none
      else
        let hitpoints := safe_int (dictGet wiki_data ("hitpoints")) 0
        if hitpoints = 0 then Except.ok Option.none
        else
          match asStr page_name ("AttributeError: lower on non-str page_name") with
          | Except.error e => Except.error e
          | Except.ok pn =>
            let name_lower := pyLower pn
            if pyIn ("(historical)") name_lower then Except.ok Option.none
            else if pyIn ("(pvm arena)") name_lower then Except.ok Option.none
            else if pyIn ("(deadman: apocalypse)") name_lower then Except.ok Option.none
            else if pyIn ("(last man standing)") name_lower then Except.ok Option.none
            else
              let slayer_category := normalize_slayer_category (dictGet wiki_data ("slayer_category"))
              match normalize_attributes (dictGet wiki_data ("attribute")) with
              | Except.error e => Except.error e
              | Except.ok attributes =>
                let is_slayer := !slayer_category.isEmpty ||
                  decide (0 < safe_int (dictGet wiki_data ("slayer_experience")) 0)
                let is_boss := attributes.contains ("boss") ||
                  slayer_category.any (fun c => pyEqStr c ("Bosses"))
                match normalize_attack_style (dictGet wiki_data ("attack_style")) with
                | Except.error e => Except.error e
                | Except.ok attack_type =>
                  Except.ok (some (strip_parser_tags_dict
                    (buildFields wiki_data monster_id pn version hitpoints
                      slayer_category attributes attack_type is_slayer is_boss pns)))

/-- Embedding of `should_include` (lines 394-404).  The source returns the
stored dict value and the caller applies truthiness (`if not
should_include(...)`); the truthiness is applied here. -/
def should_include (monster : Monster) (filter_mode : String) : Bool :=
  if filter_mode == "all" then true
  else if filter_mode == "slayer" then
    pyTruthy (dictGetD monster ("slayer_monster") (PyVal.bool false))
  else if filter_mode == "boss" then
    pyTruthy (dictGetD monster ("boss") (PyVal.bool false))
  else if filter_mode == "slayer+boss" then
    pyTruthy (dictGetD monster ("slayer_monster") (PyVal.bool false)) ||
      pyTruthy (dictGetD monster ("boss") (PyVal.bool false))
  else true

/-- Association-list lookup in the accumulator dict `monsters_by_id`. -/
def lookupId : List (Int × Monster) → Int → Option Monster
  | [], _ => Option.none
  | (k, m) :: rest, key => if k = key then some m else lookupId rest key

/-- The `monster["id"]` read of the main loop (line 430); the transformer
always stores an `int` there, so the fallback is unreachable for pipeline
values. -/
def monsterId (m : Monster) : Int :=
  match dictGet m ("id") with
  | PyVal.int n => n
  | _ => 0

/-- The Deduplication Reducer: the collision handling of `main`
(lines 432-447).  On a collision both arms of the source's version
comparison `continue`, so the incoming entity is always discarded; a fresh
id is inserted. -/
def dedupStep (monsters_by_id : List (Int × Monster)) (monster : Monster) :
    List (Int × Monster) :=
  let monster_id := monsterId monster
  match lookupId monsters_by_id monster_id with
  | some existing =>
    if pyTruthy (dictGet monster ("version")) &&
        !pyTruthy (dictGet existing ("version")) then
      monsters_by_id
    else
      monsters_by_id
  | Option.none => monsters_by_id ++ [(monster_id, monster)]

/-- Fold of the Deduplication Reducer over a sequence of canonical
entities. -/
def dedupFold (ms : List Monster) : List (Int × Monster) :=
  ms.foldl dedupStep []

/-- The transform/filter/dedup loop of `main` (lines 420-447) over a list of
raw records, carrying the accumulator dict. -/
def runPipeline (filter_mode : String) :
    List RawRecord → List (Int × Monster) → Except String (List (Int × Monster))
  | [], acc => Except.ok acc
  | w :: ws, acc =>
    match transform_monster w with
    | Except.error e => Except.error e
    | Except.ok Option.none => runPipeline filter_mode ws acc
    | Except.ok (some monster) =>
      if should_include monster filter_mode then
        runPipeline filter_mode ws (dedupStep acc monster)
      else
        runPipeline filter_mode ws acc

/-- The final entity mapping produced by `main` for a record sequence and a
filter mode. -/
def processMonsters (records : List RawRecord) (filter_mode : String) :
    Except String (List (Int × Monster)) :=
  runPipeline filter_mode records []

/-- The sequence of canonical entities produced by transformation alone (in
source order, rejects dropped, first raised exception propagated). -/
def canonicalEntities : List RawRecord → Except String (List Monster)
  | [] => Except.ok []
  | w :: ws =>
    match transform_monster w with
    | Except.error e => Except.error e
    | Except.ok Option.none => canonicalEntities ws
    | Except.ok (some m) =>
      match canonicalEntities ws with
      | Except.error e => Except.error e
      | Except.ok ms => Except.ok (m :: ms)

/-- Shape checks on `PyVal`s, used to state structural validity of a
canonical monster. -/
def valIsInt : PyVal → Bool
  | PyVal.int _ => true
  | _ => false

def valIsStr : PyVal → Bool
  | PyVal.str _ => true
  | _ => false

def valIsNoneOrStr : PyVal → Bool
  | PyVal.none => true
  | PyVal.str _ => true
  | _ => false

/-- All elements of a `PyList` are strings. -/
def allStrsL : PyList → Bool
  | PyList.nil => true
  | PyList.cons x xs => valIsStr x && allStrsL xs

/-- A value that, when it is a list, contains only strings (scalars are
unconstrained).  This is the well-formedness needed for `.lower()` to be
safe inside the list comprehensions. -/
def listElemsAreStrs : PyVal → Bool
  | PyVal.list xs => allStrsL xs
  | _ => true

/-- Structural validity of a canonical monster: exactly the 40 keys of the
source dictionary, in order, each with the value shape the transformer
assigns (ints for numeric fields, strings for names, bools for flags, a
string list for `attack_type`/`attributes`, any list for `category`,
`None`-or-string for `version`/`elemental_weakness`, a float for
`slayer_xp`). -/
def monsterWellFormed : Monster → Bool
  | (("id"), PyVal.int _) ::
    (("name"), PyVal.str _) ::
    (("version"), vv) ::
    (("combat_level"), PyVal.int _) ::
    (("hitpoints"), PyVal.int _) ::
    (("attack_level"), PyVal.int _) ::
    (("strength_level"), PyVal.int _) ::
    (("defence_level"), PyVal.int _) ::
    (("magic_level"), PyVal.int _) ::
    (("ranged_level"), PyVal.int _) ::
    (("attack_bonus"), PyVal.int _) ::
    (("strength_bonus"), PyVal.int _) ::
    (("attack_magic"), PyVal.int _) ::
    (("magic_bonus"), PyVal.int _) ::
    (("attack_ranged"), PyVal.int _) ::
    (("ranged_bonus"), PyVal.int _) ::
    (("defence_stab"), PyVal.int _) ::
    (("defence_slash"), PyVal.int _) ::
    (("defence_crush"), PyVal.int _) ::
    (("defence_magic"), PyVal.int _) ::
    (("defence_ranged"), PyVal.int _) ::
    (("defence_ranged_light"), PyVal.int _) ::
    (("defence_ranged_standard"), PyVal.int _) ::
    (("defence_ranged_heavy"), PyVal.int _) ::
    (("attack_speed"), PyVal.int _) ::
    (("attack_type"), PyVal.list ats) ::
    (("max_hit"), PyVal.int _) ::
    (("size"), PyVal.int _) ::
    (("attributes"), PyVal.list attrs) ::
    (("category"), PyVal.list _) ::
    (("slayer_monster"), PyVal.bool _) ::
    (("slayer_level"), PyVal.int _) ::
    (("slayer_xp"), PyVal.float _) ::
    (("boss"), PyVal.bool _) ::
    (("immune_poison"), PyVal.bool _) ::
    (("immune_venom"), PyVal.bool _) ::
    (("elemental_weakness"), ew) ::
    (("elemental_weakness_percent"), PyVal.int _) ::
    (("_source"), PyVal.str _) ::
    (("_wiki_page"), PyVal.str _) :: [] =>
    valIsNoneOrStr vv && allStrsL ats && allStrsL attrs && valIsNoneOrStr ew
  | _ => false

/-- A string equal to its own whitespace-trimmed form. -/
def strTrimmed (s : String) : Bool := pyStrip s == s

mutual

/-- Every string at any nesting depth of the value is whitespace-trimmed. -/
def valTrimmed : PyVal → Bool
  | PyVal.str s => strTrimmed s
  | PyVal.list xs => listTrimmed xs
  | _ => true

def listTrimmed : PyList → Bool
  | PyList.nil => true
  | PyList.cons x xs => valTrimmed x && listTrimmed xs

end

/-- Every string at any nesting depth of any value of the dict is
whitespace-trimmed. -/
def dictTrimmed (m : Monster) : Bool := m.all (fun kv => valTrimmed kv.2)

/-! Lemmas about whitespace stripping. -/

lemma pyStrip_def (s : String) :
    pyStrip s = String.mk (List.rdropWhile isPySpace (List.dropWhile isPySpace s.toList)) := rfl

lemma stripCore_idem (p : Char → Bool) (l : List Char) :
    List.rdropWhile p (List.dropWhile p (List.rdropWhile p (List.dropWhile p l))) =
      List.rdropWhile p (List.dropWhile p l) := by
  have hpre : List.rdropWhile p (List.dropWhile p l) <+: List.dropWhile p l :=
    List.rdropWhile_prefix p (List.dropWhile p l)
  have hself : List.dropWhile p (List.rdropWhile p (List.dropWhile p l)) =
      List.rdropWhile p (List.dropWhile p l) := by
    rw [List.dropWhile_eq_self_iff]
    intro hl
    have hlen : 0 < (List.dropWhile p l).length := lt_of_lt_of_le hl hpre.length_le
    have hget : (List.rdropWhile p (List.dropWhile p l)).get ⟨0, hl⟩ =
        (List.dropWhile p l).get ⟨0, hlen⟩ := by
      simpa using List.IsPrefix.getElem hpre hl
    rw [hget]
    exact List.dropWhile_get_zero_not p l hlen
  rw [hself, List.rdropWhile_idempotent]

lemma pyStrip_idem (s : String) : pyStrip (pyStrip s) = pyStrip s :=
  congrArg String.mk (stripCore_idem isPySpace s.toList)

lemma strTrimmed_pyStrip (s : String) : strTrimmed (pyStrip s) = true := by
  unfold strTrimmed
  rw [pyStrip_idem]
  simp

lemma strTrimmed_strip_str (s : String) : strTrimmed (strip_parser_tags_str s) = true :=
  strTrimmed_pyStrip (stripMarkers s)

mutual

theorem valTrimmed_strip : (v : PyVal) → valTrimmed (strip_parser_tags v) = true
  | PyVal.none => rfl
  | PyVal.bool _ => rfl
  | PyVal.int _ => rfl
  | PyVal.float _ => rfl
  | PyVal.str s => strTrimmed_strip_str s
  | PyVal.list xs => listTrimmed_strip xs

theorem listTrimmed_strip : (xs : PyList) → listTrimmed (strip_parser_tags_list xs) = true
  | PyList.nil => rfl
  | PyList.cons x xs => by
    show (valTrimmed (strip_parser_tags x) && listTrimmed (strip_parser_tags_list xs)) = true
    rw [valTrimmed_strip x, listTrimmed_strip xs]
    rfl

end

lemma dictTrimmed_strip (m : List (String × PyVal)) :
    dictTrimmed (strip_parser_tags_dict m) = true := by
  unfold dictTrimmed strip_parser_tags_dict
  rw [List.all_map]
  refine List.all_eq_true.mpr ?_
  intro kv _
  exact valTrimmed_strip kv.2

/-! Lemmas about ASCII lowercasing. -/

lemma char_toNat_ofNat_of_valid {n : Nat} (h : Nat.isValidChar n) :
    (Char.ofNat n).toNat = n := by
  rw [Char.ofNat, dif_pos h]
  rfl

lemma char_toLower_toNat (c : Char) :
    (Char.toLower c).toNat = if c.toNat ≥ 65 ∧ c.toNat ≤ 90 then c.toNat + 32 else c.toNat := by
  unfold Char.toLower
  by_cases h : c.toNat ≥ 65 ∧ c.toNat ≤ 90
  · rw [if_pos h, if_pos h]
    exact char_toNat_ofNat_of_valid (Or.inl (by omega))
  · rw [if_neg h, if_neg h]

lemma char_toNat_inj {a b : Char} (h : a.toNat = b.toNat) : a = b := by
  have ha := Char.ofNat_toNat a
  have hb := Char.ofNat_toNat b
  rw [← ha, ← hb, h]

lemma char_toLower_idem (c : Char) : Char.toLower (Char.toLower c) = Char.toLower c := by
  apply char_toNat_inj
  rw [char_toLower_toNat, char_toLower_toNat c]
  by_cases h : c.toNat ≥ 65 ∧ c.toNat ≤ 90
  · simp only [if_pos h]
    rw [if_neg (by omega)]
  · simp only [if_neg h]

lemma pyLower_idem (s : String) : pyLower (pyLower s) = pyLower s := by
  unfold pyLower
  refine congrArg String.mk ?_
  show (String.mk (s.toList.map Char.toLower)).toList.map Char.toLower = _
  have : (String.mk (s.toList.map Char.toLower)).toList = s.toList.map Char.toLower := rfl
  rw [this, List.map_map]
  exact List.map_congr_left (fun c _ => char_toLower_idem c)

lemma pyLower_ne_None (s : String) : pyLower s ≠ "None" := by
  intro h
  have : pyLower (pyLower s) = pyLower s := pyLower_idem s
  rw [h] at this
  exact absurd this (by decide)

lemma pyLower_ne_NA (s : String) : pyLower s ≠ "N/A" := by
  intro h
  have : pyLower (pyLower s) = pyLower s := pyLower_idem s
  rw [h] at this
  exact absurd this (by decide)

/-! Lemmas about the list-comprehension normalizers. -/

theorem lower_style_items_ok : (xs : PyList) → allStrsL xs = true →
    ∃ l, lower_style_items xs = Except.ok l
  | PyList.nil, _ => ⟨[], rfl⟩
  | PyList.cons x xs, h => by
    have hx : valIsStr x = true := by
      have : (valIsStr x && allStrsL xs) = true := h
      exact (Bool.and_eq_true_iff.mp this).1
    have hxs : allStrsL xs = true := by
      have : (valIsStr x && allStrsL xs) = true := h
      exact (Bool.and_eq_true_iff.mp this).2
    obtain ⟨l, hl⟩ := lower_style_items_ok xs hxs
    cases x with
    | str s =>
      unfold lower_style_items
      by_cases hc : (pyTruthy (PyVal.str s) && !(pyEqStr (PyVal.str s) ("None")) &&
          !(pyEqStr (PyVal.str s) ("N/A"))) = true
      · rw [if_pos hc, hl]
        exact ⟨pyLower s :: l, rfl⟩
      · rw [if_neg hc]
        exact ⟨l, hl⟩
    | none => exact absurd hx (by simp [valIsStr])
    | bool b => exact absurd hx (by simp [valIsStr])
    | int n => exact absurd hx (by simp [valIsStr])
    | float n => exact absurd hx (by simp [valIsStr])
    | list ys => exact absurd hx (by simp [valIsStr])

theorem lower_attr_items_ok : (xs : PyList) → allStrsL xs = true →
    ∃ l, lower_attr_items xs = Except.ok l
  | PyList.nil, _ => ⟨[], rfl⟩
  | PyList.cons x xs, h => by
    have hx : valIsStr x = true := by
      have : (valIsStr x && allStrsL xs) = true := h
      exact (Bool.and_eq_true_iff.mp this).1
    have hxs : allStrsL xs = true := by
      have : (valIsStr x && allStrsL xs) = true := h
      exact (Bool.and_eq_true_iff.mp this).2
    obtain ⟨l, hl⟩ := lower_attr_items_ok xs hxs
    cases x with
    | str s =>
      unfold lower_attr_items
      by_cases hc : pyTruthy (PyVal.str s) = true
      · rw [if_pos hc, hl]
        exact ⟨pyLower s :: l, rfl⟩
      · rw [if_neg hc]
        exact ⟨l, hl⟩
    | none => exact absurd hx (by simp [valIsStr])
    | bool b => exact absurd hx (by simp [valIsStr])
    | int n => exact absurd hx (by simp [valIsStr])
    | float n => exact absurd hx (by simp [valIsStr])
    | list ys => exact absurd hx (by simp [valIsStr])

theorem normalize_attack_style_ok (v : PyVal) (h : listElemsAreStrs v = true) :
    ∃ l, normalize_attack_style v = Except.ok l := by
  unfold normalize_attack_style
  by_cases hc : (v = PyVal.none || pyEqStr v ("None") || pyEqStr v ("N/A")) = true
  · rw [if_pos hc]
    exact ⟨[], rfl⟩
  · rw [if_neg hc]
    cases v with
    | str s => exact ⟨[pyLower s], rfl⟩
    | list xs => exact lower_style_items_ok xs h
    | none => exact ⟨[], rfl⟩
    | bool b => exact ⟨[], rfl⟩
    | int n => exact ⟨[], rfl⟩
    | float n => exact ⟨[], rfl⟩

theorem normalize_attributes_ok (v : PyVal) (h : listElemsAreStrs v = true) :
    ∃ l, normalize_attributes v = Except.ok l := by
  cases v with
  | str s => exact ⟨[pyLower s], rfl⟩
  | list xs => exact lower_attr_items_ok xs h
  | none => exact ⟨[], rfl⟩
  | bool b => exact ⟨[], rfl⟩
  | int n => exact ⟨[], rfl⟩
  | float n => exact ⟨[], rfl⟩

theorem lower_style_items_shape : (xs : PyList) → (styles : List String) →
    lower_style_items xs = Except.ok styles → ∀ t ∈ styles, ∃ u, t = pyLower u
  | PyList.nil, styles, h => by
    injection h with h1
    subst h1
    intro t ht
    exact absurd ht (List.not_mem_nil t)
  | PyList.cons x xs, styles, h => by
    unfold lower_style_items at h
    by_cases hc : (pyTruthy x && !(pyEqStr x ("None")) && !(pyEqStr x ("N/A"))) = true
    · rw [if_pos hc] at h
      cases x with
      | str s =>
        cases hr : lower_style_items xs with
        | ok rest =>
          rw [hr] at h
          injection h with h1
          subst h1
          intro t ht
          rcases List.mem_cons.mp ht with h2 | h2
          · exact ⟨s, h2⟩
          · exact lower_style_items_shape xs rest hr t h2
        | error e =>
          rw [hr] at h
          cases h
      | none => cases h
      | bool b => cases h
      | int n => cases h
      | float n => cases h
      | list ys => cases h
    · rw [if_neg hc] at h
      exact lower_style_items_shape xs styles h

theorem normalize_attack_style_shape (v : PyVal) (styles : List String)
    (h : normalize_attack_style v = Except.ok styles) :
    ∀ t ∈ styles, ∃ u, t = pyLower u := by
  unfold normalize_attack_style at h
  by_cases hc : (v = PyVal.none || pyEqStr v ("None") || pyEqStr v ("N/A")) = true
  · rw [if_pos hc] at h
    injection h with h1
    subst h1
    intro t ht
    exact absurd ht (List.not_mem_nil t)
  · rw [if_neg hc] at h
    cases v with
    | str s =>
      injection h with h1
      subst h1
      intro t ht
      rcases List.mem_singleton.mp ht with h2
      exact ⟨s, by rw [h2]⟩
    | list xs => exact lower_style_items_shape xs styles h
    | none =>
      injection h with h1
      subst h1
      intro t ht
      exact absurd ht (List.not_mem_nil t)
    | bool b =>
      injection h with h1
      subst h1
      intro t ht
      exact absurd ht (List.not_mem_nil t)
    | int n =>
      injection h with h1
      subst h1
      intro t ht
      exact absurd ht (List.not_mem_nil t)
    | float n =>
      injection h with h1
      subst h1
      intro t ht
      exact absurd ht (List.not_mem_nil t)

/-! Structural lemmas about the transformer. -/

lemma asStr_ok {v : PyVal} {e s : String} (h : asStr v e = Except.ok s) :
    v = PyVal.str s := by
  cases v with
  | str t =>
    injection h with h1
    rw [h1]
  | none => cases h
  | bool b => cases h
  | int n => cases h
  | float n => cases h
  | list xs => cases h

theorem allStrsL_strip_map_str : (l : List String) →
    allStrsL (strip_parser_tags_list (PyList.ofList (l.map PyVal.str))) = true
  | [] => rfl
  | t :: rest => by
    show (valIsStr (strip_parser_tags (PyVal.str t)) &&
      allStrsL (strip_parser_tags_list (PyList.ofList (rest.map PyVal.str)))) = true
    rw [allStrsL_strip_map_str rest]
    rfl

lemma monsterWellFormed_build (w : RawRecord) (monster_id : Int) (pn : String)
    (version : String) (hitpoints : Int) (slayer_category : List PyVal)
    (attributes : List String) (attack_type : List String)
    (is_slayer : Bool) (is_boss : Bool) (pns : String) :
    monsterWellFormed (strip_parser_tags_dict
      (buildFields w monster_id pn version hitpoints slayer_category attributes
        attack_type is_slayer is_boss pns)) = true := by
  unfold buildFields strip_parser_tags_dict
  by_cases hv : version = ""
  · by_cases he : safe_str (dictGet w ("elemental_weakness")) "" = ""
    · simp only [if_pos hv, if_pos he]
      show ((valIsNoneOrStr PyVal.none &&
          allStrsL (strip_parser_tags_list (PyList.ofList (attack_type.map PyVal.str))) &&
          allStrsL (strip_parser_tags_list (PyList.ofList (attributes.map PyVal.str))) &&
          valIsNoneOrStr PyVal.none) = true)
      rw [allStrsL_strip_map_str, allStrsL_strip_map_str]
      rfl
    · simp only [if_pos hv, if_neg he]
      show ((valIsNoneOrStr PyVal.none &&
          allStrsL (strip_parser_tags_list (PyList.ofList (attack_type.map PyVal.str))) &&
          allStrsL (strip_parser_tags_list (PyList.ofList (attributes.map PyVal.str))) &&
          valIsNoneOrStr (PyVal.str (strip_parser_tags_str
            (safe_str (dictGet w ("elemental_weakness")) "")))) = true)
      rw [allStrsL_strip_map_str, allStrsL_strip_map_str]
      rfl
  · by_cases he : safe_str (dictGet w ("elemental_weakness")) "" = ""
    · simp only [if_neg hv, if_pos he]
      show ((valIsNoneOrStr (PyVal.str (strip_parser_tags_str version)) &&
          allStrsL (strip_parser_tags_list (PyList.ofList (attack_type.map PyVal.str))) &&
          allStrsL (strip_parser_tags_list (PyList.ofList (attributes.map PyVal.str))) &&
          valIsNoneOrStr PyVal.none) = true)
      rw [allStrsL_strip_map_str, allStrsL_strip_map_str]
      rfl
    · simp only [if_neg hv, if_neg he]
      show ((valIsNoneOrStr (PyVal.str (strip_parser_tags_str version)) &&
          allStrsL (strip_parser_tags_list (PyList.ofList (attack_type.map PyVal.str))) &&
          allStrsL (strip_parser_tags_list (PyList.ofList (attributes.map PyVal.str))) &&
          valIsNoneOrStr (PyVal.str (strip_parser_tags_str
            (safe_str (dictGet w ("elemental_weakness")) "")))) = true)
      rw [allStrsL_strip_map_str, allStrsL_strip_map_str]
      rfl

/-- Inversion of a successful, non-rejecting run of the transformer: the
sub-page and page names were strings, both normalizers succeeded, the id and
hitpoints coercions were non-zero, and the produced monster is the stripped
dictionary literal. -/
theorem transform_monster_ok_inv (w : RawRecord) (m : Monster)
    (h : transform_monster w = Except.ok (some m)) :
    ∃ (pns pn : String) (attrs styles : List String),
      dictGetD w ("page_name_sub") (PyVal.str ("")) = PyVal.str pns ∧
      dictGetD w ("page_name") (PyVal.str ("")) = PyVal.str pn ∧
      normalize_attributes (dictGet w ("attribute")) = Except.ok attrs ∧
      normalize_attack_style (dictGet w ("attack_style")) = Except.ok styles ∧
      safe_int (dictGet w ("id")) 0 ≠ 0 ∧
      safe_int (dictGet w ("hitpoints")) 0 ≠ 0 ∧
      m = strip_parser_tags_dict (buildFields w (safe_int (dictGet w ("id")) 0) pn
            (versionOf pns) (safe_int (dictGet w ("hitpoints")) 0)
            (normalize_slayer_category (dictGet w ("slayer_category"))) attrs styles
            (!(normalize_slayer_category (dictGet w ("slayer_category"))).isEmpty ||
              decide (0 < safe_int (dictGet w ("slayer_experience")) 0))
            (attrs.contains ("boss") ||
              (normalize_slayer_category (dictGet w ("slayer_category"))).any
                (fun c => pyEqStr c ("Bosses")))
            pns) := by
  simp only [transform_monster] at h
  cases hps : asStr (dictGetD w ("page_name_sub") (PyVal.str ("")))
      ("AttributeError: split on non-str page_name_sub") with
  | error e => rw [hps] at h; cases h
  | ok pns =>
  rw [hps] at h
  dsimp only at h
  by_cases h1 : pyIn ("Challenge Mode") (versionOf pns) = true
  · rw [if_pos h1] at h; simp at h
  · rw [if_neg h1] at h
    by_cases h2 : nsMatch pns = true
    · rw [if_pos h2] at h; simp at h
    · rw [if_neg h2] at h
      by_cases h3 : (MONSTERS_TO_SKIP.any fun nm =>
          pyEqStr (dictGetD w ("page_name") (PyVal.str (""))) nm) = true
      · rw [if_pos h3] at h; simp at h
      · rw [if_neg h3] at h
        by_cases h4 : pyIn ("Spawn point") (versionOf pns) = true
        · rw [if_pos h4] at h; simp at h
        · rw [if_neg h4] at h
          by_cases h5 : (pyIn ("Asleep") (versionOf pns) ||
              pyIn ("Defeated") (versionOf pns)) = true
          · rw [if_pos h5] at h; simp at h
          · rw [if_neg h5] at h
            by_cases h6 : isBarrierPage pns = true
            · rw [if_pos h6] at h; simp at h
            · rw [if_neg h6] at h
              by_cases h7 : safe_int (dictGet w ("id")) 0 = 0
              · rw [if_pos h7] at h; simp at h
              · rw [if_neg h7] at h
                by_cases h8 : safe_int (dictGet w ("hitpoints")) 0 = 0
                · rw [if_pos h8] at h; simp at h
                · rw [if_neg h8] at h
                  cases hpn : asStr (dictGetD w ("page_name") (PyVal.str ("")))
                      ("AttributeError: lower on non-str page_name") with
                  | error e => rw [hpn] at h; cases h
                  | ok pn =>
                  rw [hpn] at h
                  dsimp only at h
                  by_cases h9 : pyIn ("(historical)") (pyLower pn) = true
                  · rw [if_pos h9] at h; simp at h
                  · rw [if_neg h9] at h
                    by_cases h10 : pyIn ("(pvm arena)") (pyLower pn) = true
                    · rw [if_pos h10] at h; simp at h
                    · rw [if_neg h10] at h
                      by_cases h11 : pyIn ("(deadman: apocalypse)") (pyLower pn) = true
                      · rw [if_pos h11] at h; simp at h
                      · rw [if_neg h11] at h
                        by_cases h12 : pyIn ("(last man standing)") (pyLower pn) = true
                        · rw [if_pos h12] at h; simp at h
                        · rw [if_neg h12] at h
                          cases hattrs : normalize_attributes (dictGet w ("attribute")) with
                          | error e => rw [hattrs] at h; cases h
                          | ok attrs =>
                          rw [hattrs] at h
                          dsimp only at h
                          cases hsty : normalize_attack_style (dictGet w ("attack_style")) with
                          | error e => rw [hsty] at h; cases h
                          | ok styles =>
                          rw [hsty] at h
                          dsimp only at h
                          refine ⟨pns, pn, attrs, styles, asStr_ok hps, asStr_ok hpn,
                            rfl, rfl, h7, h8, ?_⟩
                          injection h with hsome
                          injection hsome with hm
                          exact hm.symm

/-! Lemmas about the pipeline staging. -/

theorem runPipeline_eq (mode : String) : (records : List RawRecord) →
    (acc : List (Int × Monster)) →
    runPipeline mode records acc =
      (canonicalEntities records).map
        (fun ms => List.foldl dedupStep acc
          (ms.filter (fun m => should_include m mode)))
  | [], acc => rfl
  | w :: ws, acc => by
    unfold runPipeline canonicalEntities
    cases ht : transform_monster w with
    | error e => rfl
    | ok o =>
      cases o with
      | none => exact runPipeline_eq mode ws acc
      | some monster =>
        dsimp only
        by_cases hinc : should_include monster mode = true
        · rw [if_pos hinc, runPipeline_eq mode ws (dedupStep acc monster)]
          cases hc : canonicalEntities ws with
          | error e => rfl
          | ok ms =>
            simp only [Except.map, List.filter_cons, if_pos hinc, List.foldl_cons]
        · rw [if_neg hinc, runPipeline_eq mode ws acc]
          cases hc : canonicalEntities ws with
          | error e => rfl
          | ok ms =>
            simp only [Except.map, List.filter_cons, if_neg hinc]

/-! Concrete sample values used by witnesses and counterexamples. -/

/-- A plain accepted record: no version, id 5, non-boss. -/
def sampleRecord : RawRecord :=
  [("page_name_sub", PyVal.str ("Goblin")), ("page_name", PyVal.str ("Goblin")),
   ("id", PyVal.int 5), ("hitpoints", PyVal.int 10)]

/-- The canonical monster `transform_monster` produces for `sampleRecord`. -/
def sampleMonster : Monster :=
  match transform_monster sampleRecord with
  | Except.ok (some m) => m
  | _ => []

/-- A versioned canonical entity with id 5 (used for dedup claims). -/
def mHard : Monster :=
  [("id", PyVal.int 5), ("name", PyVal.str ("Foo")), ("version", PyVal.str ("Hard mode"))]

/-- The unversioned (base) canonical entity with the same id 5. -/
def mBase : Monster :=
  [("id", PyVal.int 5), ("name", PyVal.str ("Foo")), ("version", PyVal.none)]

/-- Claim C1 (counterexample): inserting the versioned entity `mHard` first
and the unversioned entity `mBase` with the same id afterwards leaves the
mapping holding `mHard`, not the later unversioned entity — the source's
collision handling discards the incoming entity in every shape, so no
displacement happens. -/
theorem dedup_displacement_counterexample :
    lookupId (dedupFold [mHard, mBase]) 5 = some mHard ∧ mHard ≠ mBase := by
  constructor
  · rfl
  · decide

/-- Claim C1 (amended): when a versioned entity arrives first and an
unversioned entity with the same id arrives later, the reducer keeps the
first-seen (versioned) entity at that key; the unversioned successor is
discarded. -/
theorem dedup_first_seen_beats_unversioned_successor (k : Int) (m1 m2 : Monster)
    (h1 : monsterId m1 = k) (h2 : monsterId m2 = k)
    (_hv1 : pyTruthy (dictGet m1 ("version")) = true)
    (_hv2 : pyTruthy (dictGet m2 ("version")) = false) :
    lookupId (dedupFold [m1, m2]) k = some m1 := by
  unfold dedupFold
  simp only [List.foldl]
  have e1 : dedupStep [] m1 = [(monsterId m1, m1)] := rfl
  rw [e1, h1]
  simp only [dedupStep]
  rw [h2]
  have e2 : lookupId [(k, m1)] k = some m1 := by simp [lookupId]
  rw [e2]
  dsimp only
  split <;> exact e2

/-- Witness for the amended C1 statement at the concrete entities. -/
theorem dedup_first_seen_beats_unversioned_successor_witness :
    lookupId (dedupFold [mHard, mBase]) 5 = some mHard :=
  dedup_first_seen_beats_unversioned_successor 5 mHard mBase rfl rfl rfl rfl

/-- Claim C3 (confirmed): on a collision in any of the three claimed shapes
(both versioned, both unversioned, incoming unversioned with existing
versioned) the reducer keeps the existing first-seen entity and discards the
incoming one; a fresh id is appended.  The fold `dedupFold` is a single
`List.foldl` pass of this step function, so the result is a deterministic
function of the input order and the stored fields. -/
theorem dedup_first_seen_policy (acc : List (Int × Monster)) (m : Monster) :
    (∀ existing, lookupId acc (monsterId m) = some existing →
      ((pyTruthy (dictGet m ("version")) = true ∧
          pyTruthy (dictGet existing ("version")) = true) ∨
       (pyTruthy (dictGet m ("version")) = false ∧
          pyTruthy (dictGet existing ("version")) = false) ∨
       (pyTruthy (dictGet m ("version")) = false ∧
          pyTruthy (dictGet existing ("version")) = true)) →
      dedupStep acc m = acc) ∧
    (lookupId acc (monsterId m) = Option.none →
      dedupStep acc m = acc ++ [(monsterId m, m)]) := by
  constructor
  · intro existing hex _
    simp only [dedupStep]
    rw [hex]
    dsimp only
    split <;> rfl
  · intro hnone
    simp only [dedupStep]
    rw [hnone]

/-- Witness for C3 at concrete entities: a collision of an unversioned
incoming entity with a versioned existing one keeps the existing entry, and
a fresh id is inserted. -/
theorem dedup_first_seen_policy_witness :
    dedupStep [(5, mHard)] mBase = [(5, mHard)] ∧
      dedupStep [] mBase = [(5, mBase)] :=
  ⟨(dedup_first_seen_policy [(5, mHard)] mBase).1 mHard rfl
      (Or.inr (Or.inr ⟨rfl, rfl⟩)),
    (dedup_first_seen_policy [] mBase).2 rfl⟩

/-- Claim C8 (counterexample): on the singleton list `[-5]` the source
yields 0 (the running maximum starts at 0), not the maximum `-5` of the
coerced element values as the claim states. -/
theorem parse_max_hit_negative_list_counterexample :
    parse_max_hit (PyVal.list (PyList.cons (PyVal.int (-5)) PyList.nil)) = 0 ∧
      parse_max_hit (PyVal.int (-5)) = -5 ∧ (0 : Int) ≠ -5 := by
  refine ⟨rfl, rfl, ?_⟩
  decide

theorem parse_max_hit_go_eq : (xs : PyList) → (acc : Int) →
    parse_max_hit_go acc xs =
      List.foldl (fun a v => max a (parse_max_hit v)) acc (PyList.toList xs)
  | PyList.nil, acc => rfl
  | PyList.cons x xs, acc => by
    show parse_max_hit_go (if parse_max_hit x > acc then parse_max_hit x else acc) xs = _
    rw [parse_max_hit_go_eq xs]
    have : (if parse_max_hit x > acc then parse_max_hit x else acc) =
        max acc (parse_max_hit x) := by
      by_cases hgt : parse_max_hit x > acc
      · rw [if_pos hgt, max_eq_right (le_of_lt hgt)]
      · rw [if_neg hgt, max_eq_left (le_of_not_lt hgt)]
    rw [this]
    rfl

/-- Claim C8 (amended): `parse_max_hit` maps `None` to 0, an int to itself,
a string to the value of the leading digit run of its whitespace-trimmed
form (0 when there is none), and a list to the maximum of 0 and the
recursively coerced element values (the running maximum starts at 0, so a
list of negative values yields 0, not its true maximum); in particular the
mixed example evaluates to 25. -/
theorem parse_max_hit_spec :
    parse_max_hit PyVal.none = 0 ∧
    (∀ n : Int, parse_max_hit (PyVal.int n) = n) ∧
    (∀ s : String, parse_max_hit (PyVal.str s) =
      (if ((pyStrip s).toList.takeWhile Char.isDigit).isEmpty then 0
       else (digitsToNat ((pyStrip s).toList.takeWhile Char.isDigit) : Int))) ∧
    (∀ xs : PyList, parse_max_hit (PyVal.list xs) =
      List.foldl (fun a v => max a (parse_max_hit v)) 0 (PyList.toList xs)) ∧
    parse_max_hit (PyVal.list (PyList.ofList
      [PyVal.int 10, PyVal.str ("25 (Melee)"), PyVal.str ("5")])) = 25 := by
  refine ⟨rfl, fun n => rfl, ?_, ?_, rfl⟩
  · intro t
    show (match leadingDigitsOf (pyStrip t) with
      | some n => (n : Int)
      | Option.none => 0) = _
    unfold leadingDigitsOf
    by_cases hd : ((pyStrip t).toList.takeWhile Char.isDigit).isEmpty = true
    · rw [if_pos hd, if_pos hd]
    · rw [if_neg hd, if_neg hd]
  · intro xs
    exact parse_max_hit_go_eq xs 0

lemma valIsStr_exists {v : PyVal} (h : valIsStr v = true) : ∃ s, v = PyVal.str s := by
  cases v with
  | str t => exact ⟨t, rfl⟩
  | none => cases h
  | bool b => cases h
  | int n => cases h
  | float n => cases h
  | list xs => cases h

lemma transform_monster_isOk (w : RawRecord)
    (hps : valIsStr (dictGetD w ("page_name_sub") (PyVal.str (""))) = true)
    (hpn : valIsStr (dictGetD w ("page_name") (PyVal.str (""))) = true)
    (hattr : listElemsAreStrs (dictGet w ("attribute")) = true)
    (hstyle : listElemsAreStrs (dictGet w ("attack_style")) = true) :
    ∃ r, transform_monster w = Except.ok r := by
  obtain ⟨pns, hpns⟩ := valIsStr_exists hps
  obtain ⟨pn, hpn'⟩ := valIsStr_exists hpn
  obtain ⟨attrs, hattrs⟩ := normalize_attributes_ok (dictGet w ("attribute")) hattr
  obtain ⟨styles, hsty⟩ := normalize_attack_style_ok (dictGet w ("attack_style")) hstyle
  have hok : (transform_monster w).isOk = true := by
    simp only [transform_monster]
    rw [hpns, hpn', hattrs, hsty]
    dsimp only [asStr]
    by_cases g1 : pyIn ("Challenge Mode") (versionOf pns) = true
    · rw [if_pos g1]; rfl
    · rw [if_neg g1]
      by_cases g2 : nsMatch pns = true
      · rw [if_pos g2]; rfl
      · rw [if_neg g2]
        by_cases g3 : (MONSTERS_TO_SKIP.any fun nm => pyEqStr (PyVal.str pn) nm) = true
        · rw [if_pos g3]; rfl
        · rw [if_neg g3]
          by_cases g4 : pyIn ("Spawn point") (versionOf pns) = true
          · rw [if_pos g4]; rfl
          · rw [if_neg g4]
            by_cases g5 : (pyIn ("Asleep") (versionOf pns) || pyIn ("Defeated") (versionOf pns)) = true
            · rw [if_pos g5]; rfl
            · rw [if_neg g5]
              by_cases g6 : isBarrierPage pns = true
              · rw [if_pos g6]; rfl
              · rw [if_neg g6]
                by_cases g7 : safe_int (dictGet w ("id")) 0 = 0
                · rw [if_pos g7]; rfl
                · rw [if_neg g7]
                  by_cases g8 : safe_int (dictGet w ("hitpoints")) 0 = 0
                  · rw [if_pos g8]; rfl
                  · rw [if_neg g8]
                    by_cases g9 : pyIn ("(historical)") (pyLower pn) = true
                    · rw [if_pos g9]; rfl
                    · rw [if_neg g9]
                      by_cases g10 : pyIn ("(pvm arena)") (pyLower pn) = true
                      · rw [if_pos g10]; rfl
                      · rw [if_neg g10]
                        by_cases g11 : pyIn ("(deadman: apocalypse)") (pyLower pn) = true
                        · rw [if_pos g11]; rfl
                        · rw [if_neg g11]
                          by_cases g12 : pyIn ("(last man standing)") (pyLower pn) = true
                          · rw [if_pos g12]; rfl
                          · rw [if_neg g12]
                            rfl
  cases he : transform_monster w with
  | ok r => exact ⟨r, rfl⟩
  | error e =>
    rw [he] at hok
    cases hok

/-- A record whose qualified sub-page name is not a string: calling
`.split` on it raises. -/
def rBadSub : RawRecord := [("page_name_sub", PyVal.int 5)]

/-- Claim C2 (counterexample): `transform_monster` raises (an
`AttributeError`, modelled as `Except.error`) on a record whose
`page_name_sub` is an int, so it is not total over arbitrary RawRecords. -/
theorem transform_monster_raises_on_nonstr_page_name_sub :
    transform_monster rBadSub =
      Except.error ("AttributeError: split on non-str page_name_sub") := rfl

/-- Claim C2 (amended): provided `page_name_sub` and `page_name` are strings
(or absent, defaulting to `""`) and any list-valued `attribute` /
`attack_style` contains only strings, `transform_monster` never raises: it
returns `None` (reject) or a structurally valid canonical monster. -/
theorem transform_monster_total_on_wellformed_names (w : RawRecord)
    (hps : valIsStr (dictGetD w ("page_name_sub") (PyVal.str (""))) = true)
    (hpn : valIsStr (dictGetD w ("page_name") (PyVal.str (""))) = true)
    (hattr : listElemsAreStrs (dictGet w ("attribute")) = true)
    (hstyle : listElemsAreStrs (dictGet w ("attack_style")) = true) :
    ∃ r, transform_monster w = Except.ok r ∧
      ∀ m, r = some m → monsterWellFormed m = true := by
  obtain ⟨r, hr⟩ := transform_monster_isOk w hps hpn hattr hstyle
  refine ⟨r, hr, ?_⟩
  intro m hm
  subst hm
  obtain ⟨pns, pn, attrs, styles, _, _, _, _, _, _, hmEq⟩ :=
    transform_monster_ok_inv w m hr
  rw [hmEq]
  exact monsterWellFormed_build w _ pn (versionOf pns) _ _ attrs styles _ _ pns

/-- Witness for the amended C2 statement at a concrete record. -/
theorem transform_monster_total_on_wellformed_names_witness :
    ∃ r, transform_monster sampleRecord = Except.ok r ∧
      ∀ m, r = some m → monsterWellFormed m = true :=
  transform_monster_total_on_wellformed_names sampleRecord rfl rfl rfl rfl

/-- A record whose raw id and hitpoints coerce to negative integers; it
passes both `== 0` checks and is accepted. -/
def rNeg : RawRecord :=
  [("page_name_sub", PyVal.str ("Negling")), ("page_name", PyVal.str ("Negling")),
   ("id", PyVal.int (-5)), ("hitpoints", PyVal.int (-3))]

/-- The canonical monster produced for `rNeg`. -/
def negMonster : Monster :=
  match transform_monster rNeg with
  | Except.ok (some m) => m
  | _ => []

/-- Claim C4 (counterexample): a record with raw id `-5` and hitpoints `-3`
is accepted (only exact zero is rejected), producing a monster whose id is
not strictly positive and whose hitpoints is below 1. -/
theorem transform_monster_negative_id_hitpoints_counterexample :
    transform_monster rNeg = Except.ok (some negMonster) ∧
      dictGet negMonster ("id") = PyVal.int (-5) ∧
      dictGet negMonster ("hitpoints") = PyVal.int (-3) ∧
      ¬(0 < (-5 : Int)) ∧ ¬(1 ≤ (-3 : Int)) := by
  refine ⟨rfl, rfl, rfl, ?_, ?_⟩ <;> decide

/-- Claim C4 (amended): every monster produced by `transform_monster`
carries an integer id and an integer hitpoints value that are both
non-zero (the source rejects exactly the zero coercions, so negative
values pass through). -/
theorem transform_monster_id_hitpoints_nonzero (w : RawRecord) (m : Monster)
    (h : transform_monster w = Except.ok (some m)) :
    (∃ n, dictGet m ("id") = PyVal.int n ∧ n ≠ 0) ∧
      (∃ hp, dictGet m ("hitpoints") = PyVal.int hp ∧ hp ≠ 0) := by
  obtain ⟨pns, pn, attrs, styles, _, _, _, _, hid, hhp, hmEq⟩ :=
    transform_monster_ok_inv w m h
  subst hmEq
  exact ⟨⟨safe_int (dictGet w ("id")) 0, rfl, hid⟩,
    ⟨safe_int (dictGet w ("hitpoints")) 0, rfl, hhp⟩⟩

/-- Witness for the amended C4 statement at a concrete record. -/
theorem transform_monster_id_hitpoints_nonzero_witness :
    (∃ n, dictGet sampleMonster ("id") = PyVal.int n ∧ n ≠ 0) ∧
      (∃ hp, dictGet sampleMonster ("hitpoints") = PyVal.int hp ∧ hp ≠ 0) :=
  transform_monster_id_hitpoints_nonzero sampleRecord sampleMonster rfl

/-- An accepted record whose raw attack style is the list `["NONE"]` (a
case variant of the sentinel). -/
def rStyleNONE : RawRecord :=
  [("page_name_sub", PyVal.str ("Imp")), ("page_name", PyVal.str ("Imp")),
   ("id", PyVal.int 7), ("hitpoints", PyVal.int 8),
   ("attack_style", PyVal.list (PyList.cons (PyVal.str ("NONE")) PyList.nil))]

/-- Claim C5 (counterexample): the sentinel filter compares case-sensitively
against exactly `"None"`/`"N/A"`, so the raw style `"NONE"` is kept and
lowercased, and the resulting monster's attack_type contains the placeholder
`"none"`. -/
theorem attack_type_case_variant_sentinel_counterexample :
    (transform_monster rStyleNONE).map (fun o => o.map (fun m => dictGet m ("attack_type"))) =
      Except.ok (some (PyVal.list (PyList.cons (PyVal.str ("none")) PyList.nil))) := rfl

/-- Claim C5 (amended): every successful attack-style normalization yields a
list of ASCII-lowercase tags that never contains the exact sentinel
spellings `"None"` or `"N/A"`; case variants such as `"NONE"` are, however,
lowercased and retained, so the lowercase `"none"` can occur. -/
theorem attack_type_lowercase_no_exact_sentinels (v : PyVal) (styles : List String)
    (h : normalize_attack_style v = Except.ok styles) :
    (∀ t ∈ styles, pyLower t = t) ∧
      ("None" : String) ∉ styles ∧ ("N/A" : String) ∉ styles := by
  have hshape := normalize_attack_style_shape v styles h
  refine ⟨?_, ?_, ?_⟩
  · intro t ht
    obtain ⟨u, hu⟩ := hshape t ht
    rw [hu]
    exact pyLower_idem u
  · intro hmem
    obtain ⟨u, hu⟩ := hshape _ hmem
    exact pyLower_ne_None u hu.symm
  · intro hmem
    obtain ⟨u, hu⟩ := hshape _ hmem
    exact pyLower_ne_NA u hu.symm

/-- Witness for the amended C5 statement at a concrete style list. -/
theorem attack_type_lowercase_no_exact_sentinels_witness :
    (∀ t ∈ ["melee"], pyLower t = t) ∧
      ("None" : String) ∉ ["melee"] ∧ ("N/A" : String) ∉ ["melee"] :=
  attack_type_lowercase_no_exact_sentinels
    (PyVal.list (PyList.cons (PyVal.str ("Melee")) PyList.nil)) ["melee"] rfl

/-- Claim C6 (confirmed): for every accepted record, the stored `boss` flag
is exactly ("boss" in the lowercased attributes) OR ("Bosses",
case-sensitively, in the normalized slayer category), and the stored
`slayer_monster` flag is exactly (non-empty slayer category) OR (coerced
slayer experience > 0). -/
theorem boss_and_slayer_derivation (w : RawRecord) (m : Monster) (attrs : List String)
    (h : transform_monster w = Except.ok (some m))
    (hattrs : normalize_attributes (dictGet w ("attribute")) = Except.ok attrs) :
    dictGet m ("boss") = PyVal.bool (attrs.contains ("boss") ||
        (normalize_slayer_category (dictGet w ("slayer_category"))).any
          (fun c => pyEqStr c ("Bosses"))) ∧
      dictGet m ("slayer_monster") = PyVal.bool
        (!(normalize_slayer_category (dictGet w ("slayer_category"))).isEmpty ||
          decide (0 < safe_int (dictGet w ("slayer_experience")) 0)) := by
  obtain ⟨pns, pn, attrs', styles, _, _, hattrs', _, _, _, hmEq⟩ :=
    transform_monster_ok_inv w m h
  have heq : attrs' = attrs := by
    rw [hattrs] at hattrs'
    injection hattrs' with he2
    exact he2.symm
  subst heq
  subst hmEq
  exact ⟨rfl, rfl⟩

/-- A boss record: slayer category `"Bosses"`, no `boss` attribute tag. -/
def rKing : RawRecord :=
  [("page_name_sub", PyVal.str ("King")), ("page_name", PyVal.str ("King")),
   ("id", PyVal.int 5), ("hitpoints", PyVal.int 50),
   ("slayer_category", PyVal.str ("Bosses"))]

/-- The canonical monster produced for `rKing`. -/
def kingMonster : Monster :=
  match transform_monster rKing with
  | Except.ok (some m) => m
  | _ => []

/-- Witness for C6 at a concrete record with `category = ["Bosses"]` and no
`boss` attribute tag (the derived flag works out to `true`). -/
theorem boss_and_slayer_derivation_witness :
    dictGet kingMonster ("boss") = PyVal.bool (List.contains [] ("boss") ||
        (normalize_slayer_category (dictGet rKing ("slayer_category"))).any
          (fun c => pyEqStr c ("Bosses"))) ∧
      dictGet kingMonster ("slayer_monster") = PyVal.bool
        (!(normalize_slayer_category (dictGet rKing ("slayer_category"))).isEmpty ||
          decide (0 < safe_int (dictGet rKing ("slayer_experience")) 0)) :=
  boss_and_slayer_derivation rKing kingMonster [] rfl rfl

/-- Claim C9 (confirmed): whenever the record's sub-page name field is a
string (or absent), a coerced-hitpoints of 0 — or a sub-page name with a
leading alphabetic namespace prefix and colon, such as `"NPC:SomePage"` —
makes `transform_monster` return `None` (reject). -/
theorem classifier_rejects_zero_hitpoints_and_namespace (w : RawRecord) (pns : String)
    (hps : dictGetD w ("page_name_sub") (PyVal.str ("")) = PyVal.str pns)
    (hcond : safe_int (dictGet w ("hitpoints")) 0 = 0 ∨ nsMatch pns = true) :
    transform_monster w = Except.ok Option.none := by
  simp only [transform_monster]
  rw [hps]
  dsimp only [asStr]
  rcases hcond with hhp | hns
  · by_cases g1 : pyIn ("Challenge Mode") (versionOf pns) = true
    · rw [if_pos g1]
    · rw [if_neg g1]
      by_cases g2 : nsMatch pns = true
      · rw [if_pos g2]
      · rw [if_neg g2]
        by_cases g3 : (MONSTERS_TO_SKIP.any fun nm => pyEqStr (dictGetD w ("page_name") (PyVal.str (""))) nm) = true
        · rw [if_pos g3]
        · rw [if_neg g3]
          by_cases g4 : pyIn ("Spawn point") (versionOf pns) = true
          · rw [if_pos g4]
          · rw [if_neg g4]
            by_cases g5 : (pyIn ("Asleep") (versionOf pns) || pyIn ("Defeated") (versionOf pns)) = true
            · rw [if_pos g5]
            · rw [if_neg g5]
              by_cases g6 : isBarrierPage pns = true
              · rw [if_pos g6]
              · rw [if_neg g6]
                by_cases g7 : safe_int (dictGet w ("id")) 0 = 0
                · rw [if_pos g7]
                · rw [if_neg g7]
                  rw [if_pos hhp]
  · by_cases g1 : pyIn ("Challenge Mode") (versionOf pns) = true
    · rw [if_pos g1]
    · rw [if_neg g1, if_pos hns]

/-- A well-formed record with hitpoints 0, and a namespaced record. -/
def rHp0 : RawRecord :=
  [("page_name_sub", PyVal.str ("Scarecrow")), ("page_name", PyVal.str ("Scarecrow")),
   ("id", PyVal.int 11), ("hitpoints", PyVal.int 0)]

def rNPC : RawRecord :=
  [("page_name_sub", PyVal.str ("NPC:SomePage")), ("page_name", PyVal.str ("SomePage")),
   ("id", PyVal.int 12), ("hitpoints", PyVal.int 30)]

/-- Witness for C9 at the two concrete records. -/
theorem classifier_rejects_zero_hitpoints_and_namespace_witness :
    transform_monster rHp0 = Except.ok Option.none ∧
      transform_monster rNPC = Except.ok Option.none :=
  ⟨classifier_rejects_zero_hitpoints_and_namespace rHp0 ("Scarecrow") rfl (Or.inl rfl),
    classifier_rejects_zero_hitpoints_and_namespace rNPC ("NPC:SomePage") rfl
      (Or.inr (by decide))⟩

/-- Claim C10 (confirmed): the tag stripper runs last over the assembled
entity and trims every string it visits, so every string at any nesting
depth of a produced monster equals its own whitespace-trimmed form. -/
theorem transform_monster_strings_trimmed (w : RawRecord) (m : Monster)
    (h : transform_monster w = Except.ok (some m)) :
    dictTrimmed m = true := by
  obtain ⟨pns, pn, attrs, styles, _, _, _, _, _, _, hmEq⟩ :=
    transform_monster_ok_inv w m h
  rw [hmEq]
  exact dictTrimmed_strip _

/-- Witness for C10 at a concrete record. -/
theorem transform_monster_strings_trimmed_witness :
    dictTrimmed sampleMonster = true :=
  transform_monster_strings_trimmed sampleRecord sampleMonster rfl

/-- Claim C7 (counterexample): with two accepted records sharing id 5 — the
non-boss `sampleRecord` first, the boss `rKing` second — the sequence of
entities reaching the reducer differs between filter modes (two entities
under `all`, one under `boss`), and consequently the entity winning id 5
differs (`"Goblin"` under `all`, `"King"` under `boss`). -/
theorem filter_mode_affects_dedup_counterexample :
    (canonicalEntities [sampleRecord, rKing]).map
        (fun ms => (ms.filter (fun m => should_include m ("all"))).length) =
      Except.ok 2 ∧
    (canonicalEntities [sampleRecord, rKing]).map
        (fun ms => (ms.filter (fun m => should_include m ("boss"))).length) =
      Except.ok 1 ∧
    (processMonsters [sampleRecord, rKing] ("all")).map
        (fun acc => (lookupId acc 5).map (fun m => dictGet m ("name"))) =
      Except.ok (some (PyVal.str ("Goblin"))) ∧
    (processMonsters [sampleRecord, rKing] ("boss")).map
        (fun acc => (lookupId acc 5).map (fun m => dictGet m ("name"))) =
      Except.ok (some (PyVal.str ("King"))) ∧
    PyVal.str ("Goblin") ≠ PyVal.str ("King") := by
  refine ⟨rfl, rfl, rfl, rfl, ?_⟩
  decide

/-- Claim C7 (amended): the Category Filter is applied after transformation
but before the Deduplication Reducer: the pipeline equals transforming all
records, filtering the canonical entities by the mode, and folding the
reducer over what remains — so the reducer sees only post-filter entities,
and the filter mode can change which entity wins an id collision. -/
theorem pipeline_filter_before_dedup (records : List RawRecord) (mode : String) :
    processMonsters records mode =
      (canonicalEntities records).map
        (fun ms => dedupFold (ms.filter (fun m => should_include m mode))) :=
  runPipeline_eq mode records []

end OsrsIngest
